import Mathlib

/-!
# Verification of the MovieLens recommender backend (recommendation subsystem)

Shallow embedding of the recommendation services of the backend:

* `src/app/services/recommendation_service.py` (class `RecommendationService`
  and the module-level functions),
* `src/app/services/advanced_recommendation_service.py`
  (class `AdvancedRecommendationService`),
* `src/app/services/interaction_service.py` (cache invalidation on write),
* `src/app/data_access/mongo_client.py` (`MovieRepository`,
  `InteractionRepository`),
* `src/app/data_access/redis_client.py` (`CacheRepository`).

Python floats are modelled as rationals (`ℚ`); the cosine-similarity value
(computed with `scipy`/`numpy` floating point) is abstracted as an arbitrary
function supplied by the store model, since no claim depends on its numeric
value.  Database and cache reads are modelled as functions returning
`Except PyErr`, mirroring that each underlying call may raise; every
`try`/`except` of the source is translated explicitly.  Cache *writes*
(`set_json`/`setex`) have no effect on the value returned by the invocation
performing them, so they are dropped in the per-request functions; the cache
read/write discipline itself is modelled separately (`serveCached`) for the
idempotence property.
-/

/-- Python exception values that the modelled code can raise. -/
inductive PyErr where
  /-- `ValueError` / `bson.errors.InvalidId`, e.g. from `ObjectId` validation. -/
  | valueError (msg : String)
  /-- a failure inside an external store (MongoDB or Redis) call. -/
  | connectionError (msg : String)
  /-- `AttributeError`, from accessing a method that does not exist. -/
  | attributeError (msg : String)
  /-- `TypeError`, e.g. ordering values of incomparable types. -/
  | typeError (msg : String)
  /-- `RecommendationServiceError` raised by the service itself. -/
  | serviceError (msg : String)
deriving DecidableEq

/-- Python `try: body except Exception: handler` for an expression-shaped body. -/
def pyTry {α : Type} (body : Except PyErr α) (handler : PyErr → Except PyErr α) :
    Except PyErr α :=
  match body with
  | .error e => handler e
  | .ok a => .ok a

/-- Python truthiness of an optional list: both `None` and `[]` are falsy,
so `if cached_recommendations:` treats a cached empty list as a miss. -/
def truthyList {α : Type} : Option (List α) → Option (List α)
  | some (x :: xs) => some (x :: xs)
  | _ => none

/-- Boolean string prefix test on the underlying character lists
(kernel-reducible, unlike `String.isPrefixOf`). -/
def strHasPrefix (p s : String) : Bool :=
  p.data.isPrefixOf s.data

/-- Redis `KEYS`-style glob matching, restricted to the shape of pattern this
code base uses: a literal string optionally ending in a single `*` wildcard
(`interaction_service.py` line 51 passes `"recommendations:user:" + uid + ":*"`). -/
def globMatch (pat key : String) : Bool :=
  match pat.data.reverse with
  | [] => decide (key = "")
  | c :: rest =>
      if c = '*' then rest.reverse.isPrefixOf key.data
      else decide (pat = key)

/-- Stable insertion of `x` into a list sorted descending by `key`:
`x` is placed before the first element whose key is not greater, so elements
with equal keys keep their original relative order.  Together with
`sortDescBy` this models Python `sorted(l, key=key, reverse=True)`. -/
def insertDescBy {α : Type} (key : α → ℚ) (x : α) : List α → List α
  | [] => [x]
  | y :: ys => if key y > key x then y :: insertDescBy key x ys else x :: y :: ys

/-- Stable descending sort by a rational key;
models `sorted(l, key=key, reverse=True)`. -/
def sortDescBy {α : Type} (key : α → ℚ) (l : List α) : List α :=
  l.foldr (insertDescBy key) []


/-! ## Cache keys

The colon-delimited cache keys used by the services, with Python's
interpolation of booleans (`str(True) = "True"`) modelled by `pyBoolStr`. -/

/-- Python string interpolation of a `bool`. -/
def pyBoolStr (b : Bool) : String :=
  if b then "True" else "False"

/-- Key of `recommendation_service.py` line 46:
`f"recommendations:user:{user_id}:{limit}:{exclude_seen}"`. -/
def userRecKey (user_id : String) (limit : ℕ) (exclude_seen : Bool) : String :=
  "recommendations:user:" ++ user_id ++ ":" ++ toString limit ++ ":" ++ pyBoolStr exclude_seen

/-- Key of `advanced_recommendation_service.py` line 174. -/
def cfRecKey (user_id : String) (limit : ℕ) (exclude_seen : Bool) : String :=
  "recommendations:cf:user:" ++ user_id ++ ":" ++ toString limit ++ ":" ++ pyBoolStr exclude_seen

/-- Key of `advanced_recommendation_service.py` line 282. -/
def cbRecKey (user_id : String) (limit : ℕ) (exclude_seen : Bool) : String :=
  "recommendations:cb:user:" ++ user_id ++ ":" ++ toString limit ++ ":" ++ pyBoolStr exclude_seen

/-- Key of `advanced_recommendation_service.py` line 396. -/
def hybridRecKey (user_id : String) (limit : ℕ) (exclude_seen : Bool) : String :=
  "recommendations:hybrid:user:" ++ user_id ++ ":" ++ toString limit ++ ":" ++ pyBoolStr exclude_seen

/-- Key of `advanced_recommendation_service.py` line 492: `f"recommendations:popular:{limit}"`. -/
def popularRecKey (limit : ℕ) : String :=
  "recommendations:popular:" ++ toString limit

/-- Key of `advanced_recommendation_service.py` line 93: `f"similar:db:{movie_id}:{limit}"`. -/
def similarDbKey (movie_id : String) (limit : ℕ) : String :=
  "similar:db:" ++ movie_id ++ ":" ++ toString limit

/-- Key of `recommendation_service.py` line 201: `f"recommendations:similar:{movie_id}:{limit}"`. -/
def similarRecKey (movie_id : String) (limit : ℕ) : String :=
  "recommendations:similar:" ++ movie_id ++ ":" ++ toString limit

/-- From `interaction_service.py` line 51: the pattern passed to `delete_pattern`
after a successful interaction write: `f"recommendations:user:{uid}:*"`. -/
def invalidationPattern (user_id : String) : String :=
  "recommendations:user:" ++ user_id ++ ":*"

/-- Model of `CacheRepository.delete_pattern` (`redis_client.py` lines 76-100):
deletes every cache entry whose key matches the glob pattern. -/
def delete_pattern {α : Type} (pat : String) (cache : List (String × α)) :
    List (String × α) :=
  cache.filter (fun kv => !globMatch pat kv.1)

/-- The cache effect of `InteractionService.create_interaction`
(`interaction_service.py` lines 49-54): after the interaction document is
stored, all keys matching `invalidationPattern user_id` are deleted (a
failure of the deletion is swallowed; the deletion itself is as modelled). -/
def invalidateUserCaches {α : Type} (user_id : String) (cache : List (String × α)) :
    List (String × α) :=
  delete_pattern (invalidationPattern user_id) cache


/-! ## Hybrid position-decay scoring (claim C2)

`AdvancedRecommendationService.get_hybrid_recommendations`,
`advanced_recommendation_service.py` lines 427-453. -/

/-- Line 430 / 440: `position_score = 1.0 - (i / len(recommendations))` for the
element at index `i` of a returned recommendation list of length `L`. -/
def positionScore (i L : ℕ) : ℚ :=
  1 - (i : ℚ) / (L : ℚ)

/-- The per-list scoring loop of the hybrid blender (lines 428-436 for the
collaborative list, 439-441 for the content-based list): each element is paired
with `position_score * weight`. -/
def scoreByPosition {α : Type} (recs : List α) (weight : ℚ) : List (α × ℚ) :=
  recs.enum.map (fun p => (p.2, positionScore p.1 recs.length * weight))


/-! ## Data model and store interface -/

/-- A movie document of the `movies` collection (`src/app/models/movie.py`,
and the fields the services read).  `mid` is `str(movie["_id"])`; list position
in `Store.dbFindMovies` results models MongoDB natural (insertion) order. -/
structure Movie where
  mid : String
  title : String
  genres : List String
  year : Option Int := none
  poster_path : Option String := none
  embedding : Option (List ℚ) := none
deriving DecidableEq

/-- The `MovieResponse` pydantic model as populated by the services
(`id`, `title`, `genres`, optional `year`, optional `posterUrl`). -/
structure MovieResponse where
  id : String
  title : String
  genres : List String
  year : Option Int := none
  posterUrl : Option String := none
deriving DecidableEq

/-- An interaction document as written by `InteractionService.create_interaction`
(`interaction_service.py` lines 33-39): field `type` is modelled as `kind`
(`"rate"` or `"view"`), `value` is the optional numeric rating.  A missing or
falsy `movie_id` is modelled as the empty string (the services test
`if not movie_id`). -/
structure Interaction where
  user_id : String
  movie_id : String
  kind : String
  value : Option ℚ := none
deriving DecidableEq

/-- A dynamically-typed JSON value as stored in the `similarity` field of an
`item_similarity` document (the only field `get_similar_movies_from_db`
reads from each entry). -/
inductive JVal where
  | num (q : ℚ)
  | str (s : String)
deriving DecidableEq

/-- Whether a `JVal` is numeric. -/
def JVal.isNum : JVal → Bool
  | .num _ => true
  | .str _ => false

/-- The numeric value of a `JVal` (`0` for strings; used only as a sort key
where all compared values are numeric). -/
def JVal.numVal : JVal → ℚ
  | .num q => q
  | .str _ => 0

/-- One entry of an `item_similarity` document's `similar_movies` array; only
the `similarity` field is ever accessed by the code (lines 112 and 118 of
`advanced_recommendation_service.py`). -/
structure SimEntry where
  similarity : JVal
deriving DecidableEq

/-- Hex-digit test for `ObjectId` validation. -/
def isHexChar (c : Char) : Bool :=
  c.isDigit || ('a' ≤ c && c ≤ 'f') || ('A' ≤ c && c ≤ 'F')

/-- Model of `bson.ObjectId.is_valid` on a string: 24 hexadecimal characters. -/
def oidIsValidStr (s : String) : Bool :=
  decide (s.data.length = 24) && s.data.all isHexChar

/-- Lexicographic comparison of character lists by code point, used to model
Python string ordering when sorting all-string `similarity` values. -/
def charListLt : List Char → List Char → Bool
  | [], [] => false
  | [], _ :: _ => true
  | _ :: _, [] => false
  | a :: as, b :: bs =>
      if a.val < b.val then true
      else if b.val < a.val then false
      else charListLt as bs

/-- The external stores as seen by one request: each field models one
underlying MongoDB / Redis call and may fail (`Except.error`), mirroring that
the call may raise.  `cosineSim` abstracts the floating-point cosine
similarity (`1 - scipy.spatial.distance.cosine`, and the equivalent numpy
expressions); no claim depends on its numeric value. -/
structure Store where
  /-- whether `get_redis()` returns a client (`None` models Redis not configured). -/
  redisAvailable : Bool
  /-- raw `redis.get` + JSON parse for keys caching a `List MovieResponse`. -/
  redisGetRecs : String → Except PyErr (Option (List MovieResponse))
  /-- raw `redis.get` + JSON parse for keys caching scored responses
  (`RecommendationService.get_similar_movies` cache entries). -/
  redisGetScored : String → Except PyErr (Option (List (MovieResponse × ℚ)))
  /-- raw `redis.get` + JSON parse for the module-level `get_similar_movies`
  cache entries (movie document with `embedding` removed, plus score). -/
  redisGetSimilarRaw : String → Except PyErr (Option (List (Movie × ℚ)))
  /-- raw `redis.setex`; the stored value is irrelevant to the request's own
  result, only the possible failure is modelled. -/
  redisSetex : String → Except PyErr Unit
  /-- `db.movies.find({}, ...).limit(n).to_list`, in collection order. -/
  dbFindMovies : ℕ → Except PyErr (List Movie)
  /-- `db.movies.find({"_id": {"$ne": oid}}, ...).limit(n).to_list`. -/
  dbFindMoviesNe : String → ℕ → Except PyErr (List Movie)
  /-- `collection.find_one({"_id": ObjectId(mid)})` for an id already
  validated as an `ObjectId`. -/
  dbFindOneMovie : String → Except PyErr (Option Movie)
  /-- `db.interactions.find({"user_id": u}).sort("timestamp", -1).limit(n)`. -/
  dbUserInteractions : String → ℕ → Except PyErr (List Interaction)
  /-- `db.interactions.find({"user_id": u}, {"movie_id": 1})`, projected to
  the `movie_id` values. -/
  dbUserMovieIds : String → Except PyErr (List String)
  /-- `db.item_similarity.find_one({"movie_id": mid})`, projected to the
  `similar_movies` array (`none` also models a document without that field). -/
  dbItemSimilarity : String → Except PyErr (Option (List SimEntry))
  /-- abstract cosine similarity between two embedding vectors. -/
  cosineSim : List ℚ → List ℚ → ℚ

/-! ## Repository layer (`src/app/data_access/mongo_client.py`,
`src/app/data_access/redis_client.py`, and
`movie_service.get_movie_embedding`) -/

namespace MovieRepository

/-- Model of `MovieRepository.get_by_id` (lines 25-48): validates the id first and
raises `ValueError` for an invalid `ObjectId`; any exception is logged and
**re-raised** (`raise`), so failures propagate to the caller. -/
def get_by_id (s : Store) (movie_id : String) : Except PyErr (Option Movie) :=
  if oidIsValidStr movie_id then s.dbFindOneMovie movie_id
  else .error (.valueError ("Invalid ObjectId format: " ++ movie_id))

/-- Model of `MovieRepository.get_movies` (lines 50-71): returns `[]` on any error. -/
def get_movies (s : Store) (limit : ℕ) : List Movie :=
  match s.dbFindMovies limit with
  | .ok l => l
  | .error _ => []

/-- Model of `MovieRepository.get_embedding` (lines 90-104): `ObjectId(movie_id)` and
the query run inside `try`, and any error (including an invalid id) yields
`None`; otherwise the document's `embedding` field, if present. -/
def get_embedding (s : Store) (movie_id : String) : Option (List ℚ) :=
  if oidIsValidStr movie_id then
    match s.dbFindOneMovie movie_id with
    | .ok (some m) => m.embedding
    | _ => none
  else none

end MovieRepository

namespace InteractionRepository

/-- Model of `InteractionRepository.get_user_interactions` (lines 123-131):
returns `[]` on any error. -/
def get_user_interactions (s : Store) (user_id : String) (limit : ℕ) :
    List Interaction :=
  match s.dbUserInteractions user_id limit with
  | .ok l => l
  | .error _ => []

/-- Model of `InteractionRepository.get_user_movie_ids` (lines 133-147), with no
`interaction_type` filter (as called by the services): returns `[]` on error. -/
def get_user_movie_ids (s : Store) (user_id : String) : List String :=
  match s.dbUserMovieIds user_id with
  | .ok l => l
  | .error _ => []

end InteractionRepository

namespace CacheRepository

/-- Model of `CacheRepository.get` + `get_json` (`redis_client.py` lines 17-39) for
keys caching recommendation lists: `None` when Redis is unavailable, the key
is absent, or any error occurs. -/
def get_json_recs (s : Store) (key : String) : Option (List MovieResponse) :=
  if s.redisAvailable then
    match s.redisGetRecs key with
    | .ok v => v
    | .error _ => none
  else none

/-- Same as `get_json_recs` for keys caching scored recommendation lists. -/
def get_json_scored (s : Store) (key : String) : Option (List (MovieResponse × ℚ)) :=
  if s.redisAvailable then
    match s.redisGetScored key with
    | .ok v => v
    | .error _ => none
  else none

end CacheRepository

namespace movie_service

/-- Model of `movie_service.get_movie_embedding` (`movie_service.py` lines 229-246):
same behavior as `MovieRepository.get_embedding` but implemented directly on
the database handle; any error yields `None`. -/
def get_movie_embedding (s : Store) (movie_id : String) : Option (List ℚ) :=
  if oidIsValidStr movie_id then
    match s.dbFindOneMovie movie_id with
    | .ok (some m) => m.embedding
    | _ => none
  else none

end movie_service

/-! ## `RecommendationService` (`src/app/services/recommendation_service.py`) -/

/-- Model of `_get_full_poster_url` (`advanced_recommendation_service.py` lines
535-539): `None` for a falsy path, otherwise the TMDB w500 URL. -/
def getFullPosterUrl : Option String → Option String
  | none => none
  | some p => if p = "" then none else some ("https://image.tmdb.org/t/p/w500" ++ p)

/-- The `movie_response_dict` built by the basic service (e.g.
`recommendation_service.py` lines 162-167): id, title, genres, optional year
(no poster fields). -/
def movieToResponseBasic (m : Movie) : MovieResponse :=
  { id := m.mid, title := m.title, genres := m.genres, year := m.year }

/-- The `movie_response_dict` built by the advanced service (e.g.
`advanced_recommendation_service.py` lines 122-132): as the basic one, plus
`posterUrl` when the document has a `poster_path` field. -/
def movieToResponseAdv (m : Movie) : MovieResponse :=
  { id := m.mid, title := m.title, genres := m.genres, year := m.year,
    posterUrl := getFullPosterUrl m.poster_path }

namespace RecommendationService

/-- The interaction-weight derivation (`recommendation_service.py` lines
89-95, duplicated at `advanced_recommendation_service.py` lines 314-318):
`0.6` when the interaction has no `value`, otherwise `float(value) / 5.0`. -/
def interactionWeight (value : Option ℚ) : ℚ :=
  match value with
  | none => 3/5
  | some v => v / 5

/-- The score-map update (lines 135-138): add to the existing entry if the
key is present, else append a new entry.  The map is an association list in
insertion order, modelling a Python dict. -/
def dictAddScore (scores : List (String × ℚ)) (k : String) (v : ℚ) :
    List (String × ℚ) :=
  if (scores.lookup k).isSome then
    scores.map (fun kv => if kv.1 = k then (kv.1, kv.2 + v) else kv)
  else scores ++ [(k, v)]

/-- The inner candidate loop (lines 111-141): for each candidate movie, skip
it when already seen, already scored, or equal to the profile movie; skip
candidates without an embedding; otherwise accumulate
`similarity * interaction_weight` into the score map. -/
def scoreCandidates (s : Store) (seen : List String) (movie_id : String)
    (srcEmb : List ℚ) (w : ℚ) :
    List Movie → List (String × ℚ) → List (String × ℚ)
  | [], scores => scores
  | c :: rest, scores =>
      if c.mid ∈ seen ∨ (scores.lookup c.mid).isSome then
        scoreCandidates s seen movie_id srcEmb w rest scores
      else if c.mid = movie_id then
        scoreCandidates s seen movie_id srcEmb w rest scores
      else
        match MovieRepository.get_embedding s c.mid with
        | none => scoreCandidates s seen movie_id srcEmb w rest scores
        | some cemb =>
            scoreCandidates s seen movie_id srcEmb w rest
              (dictAddScore scores c.mid (s.cosineSim srcEmb cemb * w))

/-- The outer profile loop (lines 82-141): for each recent interaction, skip
a falsy `movie_id`, derive the interaction weight, skip profile movies
without an embedding, and score the candidate pool
(`movie_repo.get_movies(limit=100)`, re-fetched per iteration). -/
def profileLoop (s : Store) (seen : List String) :
    List Interaction → List (String × ℚ) → List (String × ℚ)
  | [], scores => scores
  | i :: rest, scores =>
      if i.movie_id = "" then profileLoop s seen rest scores
      else
        let w := interactionWeight i.value
        match MovieRepository.get_embedding s i.movie_id with
        | none => profileLoop s seen rest scores
        | some emb =>
            profileLoop s seen rest
              (scoreCandidates s seen i.movie_id emb w
                (MovieRepository.get_movies s 100) scores)

/-- The detail-resolution loop (lines 156-170): fetch each top movie by id;
the per-item `try` logs and skips a movie whose fetch raises; a missing
movie is skipped as well. -/
def detailLoop (s : Store) : List String → List MovieResponse
  | [] => []
  | mid :: rest =>
      match MovieRepository.get_by_id s mid with
      | .error _ => detailLoop s rest
      | .ok none => detailLoop s rest
      | .ok (some m) => movieToResponseBasic m :: detailLoop s rest

/-- Model of `RecommendationService._get_default_recommendations` (lines 282-310):
the first `limit` movies in collection order, as responses; `[]` on error. -/
def _get_default_recommendations (s : Store) (limit : ℕ) :
    Except PyErr (List MovieResponse) :=
  pyTry (.ok ((MovieRepository.get_movies s limit).map movieToResponseBasic))
    (fun _ => .ok [])

/-- Model of `RecommendationService.get_recommendations_for_user` (lines 24-186):
cache check, recent-interaction fetch with popularity fallback when there are
none, seen-set fetch when `exclude_seen`, profile scoring, stable descending
sort, top-`limit` detail resolution; the outer `except` returns `[]`. -/
def get_recommendations_for_user (s : Store) (user_id : String) (limit : ℕ)
    (exclude_seen : Bool) : Except PyErr (List MovieResponse) :=
  pyTry
    (match truthyList (CacheRepository.get_json_recs s
        (userRecKey user_id limit exclude_seen)) with
     | some cached => .ok cached
     | none =>
        let user_movies := InteractionRepository.get_user_interactions s user_id 10
        if user_movies = [] then _get_default_recommendations s limit
        else
          let seen := if exclude_seen then
            InteractionRepository.get_user_movie_ids s user_id else []
          let scores := profileLoop s seen user_movies []
          let sorted := sortDescBy (fun p => p.2) scores
          let top_ids := (sorted.take limit).map (fun p => p.1)
          .ok (detailLoop s top_ids))
    (fun _ => .ok [])

/-- The similarity loop of the class method `get_similar_movies`
(lines 217-236): skip the source movie itself and candidates without an
embedding; pair the rest with their similarity. -/
def simLoop (s : Store) (movie_id : String) (srcEmb : List ℚ) :
    List Movie → List (String × ℚ)
  | [] => []
  | c :: rest =>
      if c.mid = movie_id then simLoop s movie_id srcEmb rest
      else
        match MovieRepository.get_embedding s c.mid with
        | none => simLoop s movie_id srcEmb rest
        | some cemb => (c.mid, s.cosineSim srcEmb cemb) :: simLoop s movie_id srcEmb rest

/-- The detail loop of the class method `get_similar_movies` (lines 245-266):
per-item `try` skips failures, otherwise builds the response with its score. -/
def similarDetailLoop (s : Store) : List (String × ℚ) → List (MovieResponse × ℚ)
  | [] => []
  | (mid, score) :: rest =>
      match MovieRepository.get_by_id s mid with
      | .error _ => similarDetailLoop s rest
      | .ok none => similarDetailLoop s rest
      | .ok (some m) => (movieToResponseBasic m, score) :: similarDetailLoop s rest

/-- Model of `RecommendationService.get_similar_movies` (lines 188-280): cache check;
a missing source embedding raises `RecommendationServiceError` (line 211),
which — like every other failure — is caught by the outer `except`, which
returns `[]` (lines 278-280). -/
def get_similar_movies (s : Store) (movie_id : String) (limit : ℕ) :
    Except PyErr (List (MovieResponse × ℚ)) :=
  pyTry
    (match truthyList (CacheRepository.get_json_scored s
        (similarRecKey movie_id limit)) with
     | some cached => .ok cached
     | none =>
        match MovieRepository.get_embedding s movie_id with
        | none => .error (.serviceError
            ("Movie " ++ movie_id ++ " not found or has no embedding"))
        | some srcEmb =>
          let sims := simLoop s movie_id srcEmb (MovieRepository.get_movies s 100)
          let top := (sortDescBy (fun p => p.2) sims).take limit
          .ok (similarDetailLoop s top))
    (fun _ => .ok [])

end RecommendationService

/-! ## Module-level functions of `recommendation_service.py` -/

/-- Cache key of the module-level `get_similar_movies`
(`recommendation_service.py` line 608): `f"similar:{movie_id}:{limit}"`. -/
def similarModuleKey (movie_id : String) (limit : ℕ) : String :=
  "similar:" ++ movie_id ++ ":" ++ toString limit

/-- An interaction document as seen by the popularity aggregation.  The
aggregation pipeline groups on the field `movieId` (the name written by the
data pipeline, `data_pipeline/process.py` line 369), which is `none` for
documents written by `InteractionService.create_interaction` (those carry
`movie_id` instead). -/
structure InteractionDoc where
  movieId : Option String
deriving DecidableEq

/-- Number of documents whose `movieId` equals `k`. -/
def countForKey (docs : List InteractionDoc) (k : Option String) : ℕ :=
  (docs.filter (fun d => d.movieId = k)).length

/-- The distinct `movieId` values in first-occurrence order (a
determinization of MongoDB's unspecified `$group` output order; no claim
depends on the tie order). -/
def distinctKeys (docs : List InteractionDoc) : List (Option String) :=
  docs.foldl (fun acc d => if d.movieId ∈ acc then acc else acc ++ [d.movieId]) []

/-- The aggregation pipeline of `get_popular_movies`
(`recommendation_service.py` lines 545-552): group interactions by `movieId`,
count, sort by count descending, keep the first `n` (the call passes
`limit * 2`). -/
def aggregatePopular (docs : List InteractionDoc) (n : ℕ) :
    List (Option String × ℕ) :=
  (sortDescBy (fun p => (p.2 : ℚ))
    ((distinctKeys docs).map (fun k => (k, countForKey docs k)))).take n

/-- The `ObjectId` conversion loop (lines 554-561): a `None` group key makes
`ObjectId(None)` generate a fresh id (modelled by the reserved string
`"generated-object-id"`, which matches no movie); an invalid string id raises,
is caught, and is skipped. -/
def popularMovieObjectIds (docs : List InteractionDoc) (limit : ℕ) : List String :=
  (aggregatePopular docs (limit * 2)).foldl
    (fun acc p =>
      match p.1 with
      | none => acc ++ ["generated-object-id"]
      | some id => if oidIsValidStr id then acc ++ [id] else acc) []

namespace recommendation_service

/-- Module-level `get_similar_movies` (`recommendation_service.py` lines
600-668).  Unlike the class methods, this function has **no** surrounding
`try`/`except`: the raw Redis read (lines 609-612), the candidate query
(lines 626-631) and the raw `setex` (lines 661-666) all propagate failures to
the caller.  A candidate's document is returned with its `embedding` removed
(line 649). -/
def get_similar_movies (s : Store) (movie_id : String) (limit : ℕ) :
    Except PyErr (List (Movie × ℚ)) := do
  let cached ← if s.redisAvailable then
      s.redisGetSimilarRaw (similarModuleKey movie_id limit)
    else pure none
  match cached with
  | some (x :: xs) => pure (x :: xs)
  | _ =>
    match movie_service.get_movie_embedding s movie_id with
    | none => pure []
    | some srcEmb => do
        let candidates ← s.dbFindMoviesNe movie_id 100
        let scored := candidates.filterMap (fun c =>
          match c.embedding with
          | none => none
          | some ce => some ({ c with embedding := none }, s.cosineSim srcEmb ce))
        let top := (sortDescBy (fun p => p.2) scored).take limit
        if s.redisAvailable then do
          _ ← s.redisSetex (similarModuleKey movie_id limit)
          pure top
        else pure top

/-- Module-level `get_popular_movies` (`recommendation_service.py` lines
525-597), modelled over the successful-read data (`movies` in collection
order, the raw interaction documents) plus two failure flags: `aggFails`
models a failure anywhere in the aggregation `try` (lines 543-588), and
`fallbackFails` a failure of the last-resort query (lines 592-596).  The
cached branch covers lines 535-541 (a cache read failure behaves as `none`).
Note the detail fetch (lines 570-573) applies **no sort**: the `$in` query
returns the matching movies in collection order, truncated to `limit`. -/
def get_popular_movies (movies : List Movie) (docs : List InteractionDoc)
    (cached : Option (List Movie)) (aggFails fallbackFails : Bool)
    (limit : ℕ) : List Movie :=
  match truthyList cached with
  | some c => c
  | none =>
    if aggFails then
      if fallbackFails then [] else movies.take limit
    else
      let movie_ids := popularMovieObjectIds docs limit
      if movie_ids = [] then movies.reverse.take limit
      else (movies.filter (fun m => m.mid ∈ movie_ids)).take limit

end recommendation_service

/-- Spec-side definition for the popularity fallback, following the spec's
words (§4.4): "Aggregates interaction counts grouped by item id ... and
returns the top `limit` items by count" — the items resolved in descending
count order. -/
def specTopPopularByCount (movies : List Movie) (docs : List InteractionDoc)
    (limit : ℕ) : List Movie :=
  (aggregatePopular docs limit).filterMap (fun p =>
    match p.1 with
    | some id => movies.find? (fun m => m.mid = id)
    | none => none)

/-! ## `AdvancedRecommendationService`
(`src/app/services/advanced_recommendation_service.py`) -/

/-- The collaborative-filtering predictor: `cf_model.predict(uid, iid).est`
(line 213-216); a prediction may raise. -/
structure CFModel where
  predict : String → String → Except PyErr ℚ

/-- The id-mapping tables `cf_mappings['movie_id_map']` and
`cf_mappings['user_id_map']`, modelled by their key sets. -/
structure CFMappings where
  movie_id_map : List String
  user_id_map : List String

/-- The hybrid configuration (lines 404-405). -/
structure HybridConfig where
  cf_weight : ℚ := 7/10
  cb_weight : ℚ := 3/10

/-- The model state of an `AdvancedRecommendationService` instance after
`load_models` (lines 26-78): each artifact is independently optional. -/
structure AdvancedRecommendationService where
  cf_model : Option CFModel := none
  cf_mappings : Option CFMappings := none
  hybrid_config : Option HybridConfig := none

namespace AdvancedRecommendationService

/-- Stable descending insertion by string key, for the all-string case of
`sortSimilar`. -/
def insertStrDesc (x : SimEntry) : List SimEntry → List SimEntry
  | [] => [x]
  | y :: ys =>
      match y.similarity, x.similarity with
      | .str yv, .str xv =>
          if charListLt xv.data yv.data then y :: insertStrDesc x ys
          else x :: y :: ys
      | _, _ => x :: y :: ys

/-- Model of `similar_items.sort(key=lambda x: x["similarity"], reverse=True)`
(line 112) under Python semantics: numeric keys sort numerically, string keys
sort lexicographically, and a list mixing the two kinds raises `TypeError`. -/
def sortSimilar (l : List SimEntry) : Except PyErr (List SimEntry) :=
  if l.all (fun e => e.similarity.isNum) then
    .ok (sortDescBy (fun e => e.similarity.numVal) l)
  else if l.all (fun e => !e.similarity.isNum) then
    .ok (l.foldr insertStrDesc [])
  else .error (.typeError "TypeError: comparison between str and float")

/-- Model of `MovieRepository.get_by_id` applied to a dynamically-typed argument, as in
line 118-119 where the `similarity` **value** is passed as the id:
`ObjectId.is_valid` is false for any non-string (in particular any number), so
`get_by_id` raises `ValueError`. -/
def get_by_id_dyn (s : Store) (v : JVal) : Except PyErr (Option Movie) :=
  match v with
  | .num _ => .error (.valueError "Invalid ObjectId format: <float>")
  | .str id => MovieRepository.get_by_id s id

/-- The detail loop of `get_similar_movies_from_db` (lines 116-134): for each
entry, `similar_movie_id = item["similarity"]` (line 118) and a `get_by_id`
with that value — **not** wrapped in a per-item `try`, so a raise aborts the
whole loop and reaches the outer `except`. -/
def similarFromDbLoop (s : Store) :
    List SimEntry → List MovieResponse → Except PyErr (List MovieResponse)
  | [], acc => .ok acc
  | e :: rest, acc =>
      match get_by_id_dyn s e.similarity with
      | .error err => .error err
      | .ok (some mov) => similarFromDbLoop s rest (acc ++ [movieToResponseAdv mov])
      | .ok none => similarFromDbLoop s rest acc

/-- Model of `AdvancedRecommendationService.get_similar_movies_from_db` (lines 80-148):
cache check, `item_similarity` lookup, sort by the `similarity` field, take
`limit`, resolve details; the outer `except` (lines 146-148) turns any
failure into `[]`. -/
def get_similar_movies_from_db (s : Store) (movie_id : String) (limit : ℕ) :
    List MovieResponse :=
  match
    pyTry
      (match truthyList (CacheRepository.get_json_recs s
          (similarDbKey movie_id limit)) with
       | some cached => .ok cached
       | none =>
          match s.dbItemSimilarity movie_id with
          | .error e => .error e
          | .ok none => .ok []
          | .ok (some entries) =>
              match sortSimilar entries with
              | .error e => .error e
              | .ok sorted => similarFromDbLoop s (sorted.take limit) [])
      (fun _ => .ok [])
  with
  | .ok l => l
  | .error _ => []

/-- The score-map update of the advanced content-based scorer (lines 335-345),
keyed by response id and storing the response with the running score. -/
def dictAddMovieScore (scores : List (String × MovieResponse × ℚ))
    (k : String) (m : MovieResponse) (v : ℚ) :
    List (String × MovieResponse × ℚ) :=
  if (scores.lookup k).isSome then
    scores.map (fun kv => if kv.1 = k then (kv.1, kv.2.1, kv.2.2 + v) else kv)
  else scores ++ [(k, m, v)]

/-- The similar-movie scoring loop of the advanced content-based recommender
(lines 323-345): skip seen or already-scored movies; the similarity is the
hard-coded default `0.8` (line 330) times the interaction weight. -/
def cbScoreLoop (seen : List String) (w : ℚ) :
    List MovieResponse → List (String × MovieResponse × ℚ) →
      List (String × MovieResponse × ℚ)
  | [], scores => scores
  | sm :: rest, scores =>
      if sm.id ∈ seen ∨ (scores.lookup sm.id).isSome then
        cbScoreLoop seen w rest scores
      else
        cbScoreLoop seen w rest (dictAddMovieScore scores sm.id sm (4/5 * w))

/-- The profile loop of the advanced content-based recommender (lines
308-345): per interaction, skip a falsy `movie_id`, derive the weight
(lines 314-318, same formula as the basic service), fetch up to 20
pre-computed similar movies, and score them. -/
def cbProfileLoop (s : Store) (seen : List String) :
    List Interaction → List (String × MovieResponse × ℚ) →
      List (String × MovieResponse × ℚ)
  | [], scores => scores
  | i :: rest, scores =>
      if i.movie_id = "" then cbProfileLoop s seen rest scores
      else
        cbProfileLoop s seen rest
          (cbScoreLoop seen (RecommendationService.interactionWeight i.value)
            (get_similar_movies_from_db s i.movie_id 20) scores)

/-- Model of `AdvancedRecommendationService.get_popular_movies` (lines 480-533):
after the cache check, the body calls `self.movie_repo.get_popular_movies`
(line 500) — but `MovieRepository` (`mongo_client.py` lines 19-104) defines
no method of that name, so the attribute access raises `AttributeError`
unconditionally; the outer `except` (lines 531-533) returns `[]`. -/
def get_popular_movies (s : Store) (limit : ℕ) : Except PyErr (List MovieResponse) :=
  pyTry
    (match truthyList (CacheRepository.get_json_recs s (popularRecKey limit)) with
     | some cached => .ok cached
     | none => .error (.attributeError
        "MovieRepository object has no attribute get_popular_movies"))
    (fun _ => .ok [])

/-- Model of `AdvancedRecommendationService.get_content_based_recommendations`
(lines 262-370): cache check; popularity fallback when the user has no recent
interactions (lines 295-297); otherwise profile scoring over pre-computed
similar movies, stable descending sort, top `limit`; the outer `except`
(lines 367-370) falls back to `get_popular_movies`. -/
def get_content_based_recommendations (s : Store) (user_id : String)
    (limit : ℕ) (exclude_seen : Bool) : Except PyErr (List MovieResponse) :=
  pyTry
    (match truthyList (CacheRepository.get_json_recs s
        (cbRecKey user_id limit exclude_seen)) with
     | some cached => .ok cached
     | none =>
        let user_movies := InteractionRepository.get_user_interactions s user_id 10
        if user_movies = [] then get_popular_movies s limit
        else
          let seen := if exclude_seen then
            InteractionRepository.get_user_movie_ids s user_id else []
          let scores := cbProfileLoop s seen user_movies []
          let sorted := sortDescBy (fun p => p.2.2) scores
          .ok ((sorted.take limit).map (fun p => p.2.1)))
    (fun _ => get_popular_movies s limit)

/-- The candidate loop of the collaborative-filtering recommender (lines
193-221): per candidate movie, skip it when already seen (line 197) or absent
from the movie mapping (line 201); when the **user** is absent from the user
mapping the whole function returns the content-based result (lines 205-209),
modelled as `none`; a prediction error skips the candidate (lines 219-221). -/
def cfLoop (model : CFModel) (maps : CFMappings) (user_id : String)
    (seen : List String) :
    List Movie → List (String × ℚ) → Option (List (String × ℚ))
  | [], preds => some preds
  | m :: rest, preds =>
      if m.mid ∈ seen then cfLoop model maps user_id seen rest preds
      else if m.mid ∉ maps.movie_id_map then cfLoop model maps user_id seen rest preds
      else if user_id ∉ maps.user_id_map then none
      else
        match model.predict user_id m.mid with
        | .error _ => cfLoop model maps user_id seen rest preds
        | .ok r => cfLoop model maps user_id seen rest (preds ++ [(m.mid, r)])

/-- The detail loop of the collaborative-filtering recommender (lines
230-245): `get_by_id` per top movie — **not** wrapped in a per-item `try`
here, so a failure propagates to the outer `except`. -/
def cfDetailLoop (s : Store) :
    List String → List MovieResponse → Except PyErr (List MovieResponse)
  | [], acc => .ok acc
  | mid :: rest, acc => do
      let m ← MovieRepository.get_by_id s mid
      match m with
      | some mov => cfDetailLoop s rest (acc ++ [movieToResponseAdv mov])
      | none => cfDetailLoop s rest acc

/-- Model of `AdvancedRecommendationService.get_collaborative_filtering_recommendations`
(lines 150-260): content-based fallback when the model or the mappings are not
loaded (lines 169-171); cache check; candidate scoring over
`movie_repo.get_movies(limit=500)` with content-based fallback when the user
is unknown to the model; stable descending sort of the predictions, top
`limit` with details; the outer `except` (lines 257-260) falls back to
content-based. -/
def get_collaborative_filtering_recommendations
    (svc : AdvancedRecommendationService) (s : Store) (user_id : String)
    (limit : ℕ) (exclude_seen : Bool) : Except PyErr (List MovieResponse) :=
  pyTry
    (match svc.cf_model, svc.cf_mappings with
     | some model, some maps =>
        (match truthyList (CacheRepository.get_json_recs s
            (cfRecKey user_id limit exclude_seen)) with
         | some cached => .ok cached
         | none =>
            let seen := if exclude_seen then
              InteractionRepository.get_user_movie_ids s user_id else []
            let all_movies := MovieRepository.get_movies s 500
            match cfLoop model maps user_id seen all_movies [] with
            | none => get_content_based_recommendations s user_id limit exclude_seen
            | some preds =>
                let top_ids := ((sortDescBy (fun p => p.2) preds).take limit).map
                  (fun p => p.1)
                cfDetailLoop s top_ids [])
     | _, _ => get_content_based_recommendations s user_id limit exclude_seen)
    (fun _ => get_content_based_recommendations s user_id limit exclude_seen)

end AdvancedRecommendationService

/-! ## Cache read/write discipline (claim C8) -/

/-- The cache discipline of one recommendation entry point
(`recommendation_service.py` lines 45-51 and 174-182) as a state transformer
on the cache contents: on a truthy hit the cached list is returned without
invoking the recommender; on a miss the recommender is invoked and its result
stored only when it is non-empty (`if recommendations:` before `set_json`).
The `Bool` component records whether the underlying recommender was invoked.
Serialization is deterministic, so returning equal lists models byte-identical
serialized results. -/
def serveCached (cache : List (String × List MovieResponse)) (key : String)
    (compute : List MovieResponse) :
    List MovieResponse × List (String × List MovieResponse) × Bool :=
  match truthyList (cache.lookup key) with
  | some c => (c, cache, false)
  | none =>
      if compute = [] then (compute, cache, true)
      else (compute, (key, compute) :: cache, true)

/-! ## Concrete stores and data used in the closed theorems -/

/-- A store where every read succeeds with empty data and Redis is absent. -/
def baseStore : Store where
  redisAvailable := false
  redisGetRecs := fun _ => .ok none
  redisGetScored := fun _ => .ok none
  redisGetSimilarRaw := fun _ => .ok none
  redisSetex := fun _ => .ok ()
  dbFindMovies := fun _ => .ok []
  dbFindMoviesNe := fun _ _ => .ok []
  dbFindOneMovie := fun _ => .ok none
  dbUserInteractions := fun _ _ => .ok []
  dbUserMovieIds := fun _ => .ok []
  dbItemSimilarity := fun _ => .ok none
  cosineSim := fun _ _ => 0

/-- A store whose Redis client is present but fails on every raw read. -/
def failingRedisStore : Store :=
  { baseStore with
    redisAvailable := true
    redisGetSimilarRaw := fun _ => .error (.connectionError "redis connection refused") }

/-- A movie with a valid 24-hex-character id and no embedding. -/
def mA : Movie :=
  { mid := "aaaaaaaaaaaaaaaaaaaaaaaa", title := "Movie A", genres := ["Drama"] }

/-- A second movie with a valid id. -/
def mB : Movie :=
  { mid := "bbbbbbbbbbbbbbbbbbbbbbbb", title := "Movie B", genres := ["Comedy"] }

/-- Store for the C4 counterexample: the user has one `rate` interaction on a
movie id that resolves to no document (hence no embedding), and the movie
collection holds `mA`. -/
def storeC4 : Store :=
  { baseStore with
    dbFindMovies := fun _ => .ok [mA]
    dbUserInteractions := fun _ _ =>
      .ok [{ user_id := "u4", movie_id := "cccccccccccccccccccccccc",
             kind := "rate", value := some 5 }] }

/-- Store for the C4 witness: the user has no interactions at all, and the
movie collection holds `mA`. -/
def storeC4empty : Store :=
  { baseStore with dbFindMovies := fun _ => .ok [mA] }

/-- An advanced-service state with no loaded artifacts. -/
def svcNoModel : AdvancedRecommendationService := {}

/-- An advanced-service state whose model is loaded and whose user mapping is
empty (so every requesting user is absent from it); `mA.mid` is in the movie
mapping. -/
def svcUserless : AdvancedRecommendationService :=
  { cf_model := some { predict := fun _ _ => .ok 4 }
    cf_mappings := some { movie_id_map := [mA.mid], user_id_map := [] } }

/-- An advanced-service state for the prediction-error scenario: user `"ux"`
is in the user mapping but every prediction raises. -/
def svcPredictErr : AdvancedRecommendationService :=
  { cf_model := some { predict := fun _ _ => .error (.valueError "prediction failed") }
    cf_mappings := some { movie_id_map := [mA.mid], user_id_map := ["ux"] } }

/-- The content-based response cached for user `"ux"` in the C5 stores. -/
def respB : MovieResponse :=
  { id := mB.mid, title := mB.title, genres := mB.genres }

/-- Store for the C5 counterexample: the movie collection is empty (so the
collaborative candidate loop never reaches the user-mapping check), while the
content-based recommender would answer `[respB]` from its cache. -/
def storeC5 : Store :=
  { baseStore with
    redisAvailable := true
    redisGetRecs := fun k =>
      if k = cbRecKey "ux" 5 false then .ok (some [respB]) else .ok none }

/-- As `storeC5` but with `mA` in the movie collection, so the candidate loop
does reach the user-mapping check. -/
def storeC5b : Store :=
  { storeC5 with dbFindMovies := fun _ => .ok [mA] }

/-- Interaction documents for the C6 counterexample: `mB` has two
interactions, `mA` one (all carrying the pipeline-written `movieId` field). -/
def docsC6 : List InteractionDoc :=
  [{ movieId := some mB.mid }, { movieId := some mB.mid }, { movieId := some mA.mid }]

/-- Movie collection for the C6 counterexample, in collection order:
`mA` first, `mB` second. -/
def moviesC6 : List Movie := [mA, mB]

/-- Variant of `mA` with an embedding, for the C7 witness store. -/
def m7a : Movie :=
  { mA with embedding := some [1, 0] }

/-- Variant of `mB` with an embedding, for the C7 witness store. -/
def m7b : Movie :=
  { mB with embedding := some [0, 1] }

/-- Store for the C7 witness: user `"u7"` has rated `m7a` (which is therefore
in the seen set), the candidate pool is `[m7a, m7b]`, and all similarities
evaluate to `9/10`. -/
def storeC7 : Store :=
  { baseStore with
    dbFindMovies := fun _ => .ok [m7a, m7b]
    dbFindOneMovie := fun id =>
      .ok (if id = m7a.mid then some m7a else if id = m7b.mid then some m7b else none)
    dbUserInteractions := fun _ _ =>
      .ok [{ user_id := "u7", movie_id := m7a.mid, kind := "rate", value := some 5 }]
    dbUserMovieIds := fun _ => .ok [m7a.mid]
    cosineSim := fun _ _ => 9/10 }

/-- Store for the C10 witness: movie `"m10"` has a pre-computed similarity
document whose single entry carries a numeric `similarity` field. -/
def storeC10 : Store :=
  { baseStore with
    dbItemSimilarity := fun mid =>
      if mid = "m10" then .ok (some [{ similarity := .num (9/10) }]) else .ok none }

theorem mem_insertDescBy {α : Type} (key : α → ℚ) (x y : α) (l : List α) :
    y ∈ insertDescBy key x l ↔ y = x ∨ y ∈ l := by
  induction l with
  | nil => simp [insertDescBy]
  | cons a as ih =>
      simp only [insertDescBy]
      split
      · simp only [List.mem_cons, ih]
        tauto
      · simp only [List.mem_cons]

theorem mem_sortDescBy {α : Type} (key : α → ℚ) (x : α) (l : List α) :
    x ∈ sortDescBy key l ↔ x ∈ l := by
  induction l with
  | nil => simp [sortDescBy]
  | cons a as ih =>
      simp only [sortDescBy, List.foldr] at *
      rw [mem_insertDescBy, ih, List.mem_cons]

/-- Claim C1: the spec's invariant says every cached recommendation list scoped
to user U (for every strategy) is invalidated by U's interaction write.  The
code deletes only keys matching `"recommendations:user:" ++ u ++ ":*"`; the
strategy-scoped keys written by the advanced service
(`recommendations:hybrid:user:...`, `recommendations:cf:user:...`,
`recommendations:cb:user:...`) do not match that pattern, so they survive the
write: after `create_interaction` by `"u1"` only the base key is deleted and
the three strategy-scoped cached lists remain, to be served verbatim to the
next identical request. -/
theorem c1_invalidation_misses_strategy_keys :
    invalidateUserCaches "u1"
      [(hybridRecKey "u1" 10 true, "hybrid-cached"),
       (cfRecKey "u1" 10 true, "cf-cached"),
       (cbRecKey "u1" 10 true, "cb-cached"),
       (userRecKey "u1" 10 true, "base-cached")] =
      [(hybridRecKey "u1" 10 true, "hybrid-cached"),
       (cfRecKey "u1" 10 true, "cf-cached"),
       (cbRecKey "u1" 10 true, "cb-cached")] := by
  decide

/-- Claim C2, counterexample: the claim says the last element's position score is
exactly `0.0`.  On a two-element recommender list the element at index 1 gets
`1 - 1/2 = 1/2 ≠ 0`. -/
theorem c2_last_position_score_not_zero :
    positionScore 1 2 = 1/2 ∧ (1/2 : ℚ) ≠ 0 ∧
      scoreByPosition ["m1", "m2"] 1 = [("m1", 1), ("m2", 1/2)] := by
  refine ⟨by norm_num [positionScore], by norm_num, ?_⟩
  simp [scoreByPosition, List.enum, positionScore]
  norm_num

/-- Claim C2, amended: in the hybrid blender, for every non-empty recommender
list of length `L`, the element at index `i` is assigned position score
`1 - i / L` (times the strategy weight); the first element's position score is
exactly `1.0`, the last element's is `1 / L` (not `0.0`), and every position
score is strictly positive (in particular none is negative). -/
theorem c2_position_decay {α : Type} (recs : List α) (weight : ℚ)
    (h : recs ≠ []) :
    (scoreByPosition recs weight).length = recs.length ∧
    (∀ i, i < recs.length →
      ((scoreByPosition recs weight)[i]?).map Prod.snd =
        some (positionScore i recs.length * weight)) ∧
    positionScore 0 recs.length = 1 ∧
    positionScore (recs.length - 1) recs.length = 1 / (recs.length : ℚ) ∧
    (∀ i, i < recs.length → 0 < positionScore i recs.length) := by
  have hL : 0 < recs.length := List.length_pos.mpr h
  have hLQ : (0 : ℚ) < (recs.length : ℚ) := by exact_mod_cast hL
  refine ⟨by simp [scoreByPosition], ?_, ?_, ?_, ?_⟩
  · intro i hi
    simp [scoreByPosition, List.getElem?_map, List.getElem?_enum,
      List.getElem?_eq_getElem hi]
  · simp [positionScore]
  · have hcast : ((recs.length - 1 : ℕ) : ℚ) = (recs.length : ℚ) - 1 := by
      have : (1 : ℕ) ≤ recs.length := hL
      push_cast [Nat.cast_sub this]
      ring
    rw [positionScore, hcast]
    field_simp
  · intro i hi
    rw [positionScore, sub_pos, div_lt_one hLQ]
    exact_mod_cast hi

/-- Witness for `c2_position_decay` at the concrete three-element list
`["a", "b", "c"]` with weight `1`. -/
theorem c2_position_decay_witness :
    (["a", "b", "c"] : List String) ≠ [] ∧
    positionScore 0 3 = 1 ∧ positionScore 2 3 = 1/3 ∧
    (0 : ℚ) < positionScore 2 3 := by
  have h := c2_position_decay (["a", "b", "c"] : List String) 1 (by decide)
  exact ⟨by decide, h.2.2.1, h.2.2.2.1, h.2.2.2.2 2 (by decide)⟩

/-! ## Helper lemmas -/

theorem pyTry_ok_of_const_handler {α : Type} (body : Except PyErr α) (x : α) :
    ∃ a, pyTry body (fun _ => .ok x) = .ok a := by
  cases body with
  | error e => exact ⟨x, rfl⟩
  | ok a => exact ⟨a, rfl⟩

theorem pyTry_ok_of_handler_ok {α : Type} (body : Except PyErr α)
    (handler : PyErr → Except PyErr α) (h : ∀ e, ∃ a, handler e = .ok a) :
    ∃ a, pyTry body handler = .ok a := by
  cases body with
  | error e => exact h e
  | ok a => exact ⟨a, rfl⟩

theorem adv_popular_ok (s : Store) (n : ℕ) :
    ∃ l, AdvancedRecommendationService.get_popular_movies s n = .ok l :=
  pyTry_ok_of_const_handler _ _

theorem adv_cb_ok (s : Store) (u : String) (n : ℕ) (ex : Bool) :
    ∃ l, AdvancedRecommendationService.get_content_based_recommendations s u n ex =
      .ok l := by
  unfold AdvancedRecommendationService.get_content_based_recommendations
  exact pyTry_ok_of_handler_ok _ _ (fun _ => adv_popular_ok s n)

/-! ## Claim C3 -/

/-- Claim C3, counterexample: the module-level `get_similar_movies` of
`recommendation_service.py` reads its cache key with a raw, unprotected
`redis_client.get` (line 610): when the Redis client is present but the read
fails, the failure propagates to the caller instead of degrading to an empty
list. -/
theorem c3_module_get_similar_movies_raises :
    recommendation_service.get_similar_movies failingRedisStore "abc" 10 =
      .error (.connectionError "redis connection refused") := rfl

/-- Claim C3, amended: the recommendation entry points whose bodies are
wrapped in a catch-all `try`/`except`
(`RecommendationService.get_recommendations_for_user`,
`RecommendationService.get_similar_movies`,
`RecommendationService._get_default_recommendations`) never raise, for any
behavior of the underlying stores: each returns a list, `[]` in the worst
case.  The module-level `get_similar_movies` is excluded: it has no such
wrapper and can propagate a store failure, as shown above on a concrete
failing store. -/
theorem c3_wrapped_entry_points_never_raise :
    ∀ (s : Store) (u mid : String) (limit : ℕ) (ex : Bool),
      (∃ l, RecommendationService.get_recommendations_for_user s u limit ex = .ok l) ∧
      (∃ l, RecommendationService.get_similar_movies s mid limit = .ok l) ∧
      (∃ l, RecommendationService._get_default_recommendations s limit = .ok l) := by
  intro s u mid limit ex
  refine ⟨?_, ?_, ?_⟩
  · unfold RecommendationService.get_recommendations_for_user
    exact pyTry_ok_of_const_handler _ _
  · unfold RecommendationService.get_similar_movies
    exact pyTry_ok_of_const_handler _ _
  · unfold RecommendationService._get_default_recommendations
    exact pyTry_ok_of_const_handler _ _

/-! ## Claim C8 -/

/-- Claim C8, counterexample: the claim quantifies over *every* recommendation
request, but a request whose computed result is empty is never written to the
cache (`if recommendations:` guards `set_json`), so a second identical request
invokes the recommender again: both invocation flags are `true`. -/
theorem c8_second_request_recomputes_when_empty :
    (serveCached [] (userRecKey "u1" 10 true) []).2.2 = true ∧
    (serveCached (serveCached [] (userRecKey "u1" 10 true) []).2.1
      (userRecKey "u1" 10 true) []).2.2 = true := by
  decide

/-- Claim C8, amended: for every request whose computed result is
*non-empty*: the first request (on a cold key) invokes the recommender and
stores the result; a second identical request within the TTL returns the same
(hence byte-identically serialized) list and does not invoke the recommender. -/
theorem c8_cached_idempotent_when_nonempty
    (cache : List (String × List MovieResponse)) (key : String)
    (compute : List MovieResponse)
    (hmiss : truthyList (cache.lookup key) = none) (hne : compute ≠ []) :
    (serveCached cache key compute).1 = compute ∧
    (serveCached cache key compute).2.2 = true ∧
    (serveCached (serveCached cache key compute).2.1 key compute).1 = compute ∧
    (serveCached (serveCached cache key compute).2.1 key compute).2.2 = false := by
  obtain ⟨x, xs, rfl⟩ : ∃ x xs, compute = x :: xs := by
    cases compute with
    | nil => exact absurd rfl hne
    | cons a as => exact ⟨a, as, rfl⟩
  have h1 : serveCached cache key (x :: xs) = (x :: xs, (key, x :: xs) :: cache, true) := by
    unfold serveCached
    rw [hmiss]
    simp
  have h2 : serveCached ((key, x :: xs) :: cache) key (x :: xs) =
      (x :: xs, (key, x :: xs) :: cache, false) := by
    unfold serveCached
    simp [List.lookup, truthyList]
  refine ⟨?_, ?_, ?_, ?_⟩ <;> simp [h1, h2]

/-- Witness for `c8_cached_idempotent_when_nonempty` on an empty cache, the
key of user `"u1"` and the one-element result `[respB]`. -/
theorem c8_cached_idempotent_witness :
    (serveCached [] (userRecKey "u1" 10 true) [respB]).1 = [respB] ∧
    (serveCached (serveCached [] (userRecKey "u1" 10 true) [respB]).2.1
      (userRecKey "u1" 10 true) [respB]).2.2 = false := by
  have h := c8_cached_idempotent_when_nonempty [] (userRecKey "u1" 10 true) [respB]
    rfl (by decide)
  exact ⟨h.1, h.2.2.2⟩

/-! ## Claim C9 -/

/-- Claim C9: in the content-based profile building, the derived interaction
weight is `value / 5.0` for a `rate` interaction carrying a numeric value and
the fixed default `0.6` for a `view` interaction carrying none
(`recommendation_service.py` lines 89-95 branch only on the presence of
`value`, so the preconditions of the claim make the stated weights exact). -/
theorem c9_interaction_weight (i : Interaction) :
    (∀ v : ℚ, i.kind = "rate" → i.value = some v →
      RecommendationService.interactionWeight i.value = v / 5) ∧
    (i.kind = "view" → i.value = none →
      RecommendationService.interactionWeight i.value = 0.6) := by
  constructor
  · intro v _ hv
    rw [hv]
    rfl
  · intro _ hv
    rw [hv]
    norm_num [RecommendationService.interactionWeight]

/-- Witness for `c9_interaction_weight`: a `rate` interaction with value `4`
gets weight `4/5`, a `view` interaction gets weight `0.6`. -/
theorem c9_interaction_weight_witness :
    RecommendationService.interactionWeight (some 4) = 4 / 5 ∧
    RecommendationService.interactionWeight none = 0.6 := by
  have h1 := (c9_interaction_weight
    { user_id := "u", movie_id := "m", kind := "rate", value := some 4 }).1 4 rfl rfl
  have h2 := (c9_interaction_weight
    { user_id := "u", movie_id := "m", kind := "view", value := none }).2 rfl rfl
  exact ⟨h1, h2⟩

/-! ## Claim C4 -/

/-- Claim C4, counterexample: a user with one recent interaction whose movie has
no embedding produces an empty accumulated score map, and the recommender then
returns `[]` — it does **not** return the popularity fallback's result, which
on the same store is the non-empty `[movieToResponseBasic mA]`. -/
theorem c4_empty_scores_returns_empty_not_fallback :
    RecommendationService.get_recommendations_for_user storeC4 "u4" 5 true = .ok [] ∧
    RecommendationService._get_default_recommendations storeC4 5 =
      .ok [movieToResponseBasic mA] ∧
    ([] : List MovieResponse) ≠ [movieToResponseBasic mA] := by
  refine ⟨rfl, rfl, by decide⟩

/-- Claim C4, amended: the content-based recommender falls back to the
default/popularity recommendations only when the user has **no** recent
interactions (or on an exception); when interactions exist but no candidate
accumulates any score it returns the empty list, as shown above.
Here: on a cache miss, an empty recent-interaction list yields exactly the
fallback's result. -/
theorem c4_fallback_exactly_when_no_interactions (s : Store) (user_id : String)
    (limit : ℕ) (exclude_seen : Bool)
    (hmiss : truthyList (CacheRepository.get_json_recs s
      (userRecKey user_id limit exclude_seen)) = none)
    (hempty : InteractionRepository.get_user_interactions s user_id 10 = []) :
    RecommendationService.get_recommendations_for_user s user_id limit exclude_seen =
      RecommendationService._get_default_recommendations s limit := by
  unfold RecommendationService.get_recommendations_for_user
  rw [hmiss]
  dsimp only
  rw [hempty]
  simp only [if_pos rfl]
  unfold RecommendationService._get_default_recommendations pyTry
  rfl

/-- Witness for `c4_fallback_exactly_when_no_interactions` at `storeC4empty`
(no interactions, one movie in the collection). -/
theorem c4_fallback_witness :
    RecommendationService.get_recommendations_for_user storeC4empty "u0" 5 true =
      RecommendationService._get_default_recommendations storeC4empty 5 :=
  c4_fallback_exactly_when_no_interactions storeC4empty "u0" 5 true rfl rfl

/-! ## Claim C5 -/

theorem cfLoop_eq_none_of_candidate (model : CFModel) (maps : CFMappings)
    (user_id : String) (seen : List String)
    (hu : user_id ∉ maps.user_id_map) :
    ∀ (pool : List Movie) (preds : List (String × ℚ)),
      (∃ m ∈ pool, m.mid ∉ seen ∧ m.mid ∈ maps.movie_id_map) →
      AdvancedRecommendationService.cfLoop model maps user_id seen pool preds = none := by
  intro pool
  induction pool with
  | nil =>
      intro preds h
      obtain ⟨m, hm, -⟩ := h
      exact absurd hm (List.not_mem_nil m)
  | cons c rest ih =>
      intro preds h
      simp only [AdvancedRecommendationService.cfLoop]
      by_cases hA : c.mid ∈ seen
      · rw [if_pos hA]
        apply ih
        obtain ⟨m, hm, hms, hmm⟩ := h
        rcases List.mem_cons.mp hm with rfl | hm2
        · exact absurd hA hms
        · exact ⟨m, hm2, hms, hmm⟩
      · rw [if_neg hA]
        by_cases hB : c.mid ∈ maps.movie_id_map
        · rw [if_neg (not_not_intro hB), if_pos hu]
        · rw [if_pos hB]
          apply ih
          obtain ⟨m, hm, hms, hmm⟩ := h
          rcases List.mem_cons.mp hm with rfl | hm2
          · exact absurd hmm hB
          · exact ⟨m, hm2, hms, hmm⟩

/-- Claim C5, counterexample: with the model and mappings loaded and the
requesting user absent from the user-mapping table, but an *empty* candidate
pool, the collaborative recommender never reaches the user-mapping check: it
returns `.ok []` instead of delegating to the content-based recommender,
whose result on the same store is `.ok [respB]`. -/
theorem c5_user_absent_without_candidates_no_delegation :
    AdvancedRecommendationService.get_collaborative_filtering_recommendations
      svcUserless storeC5 "ux" 5 false = .ok [] ∧
    AdvancedRecommendationService.get_content_based_recommendations
      storeC5 "ux" 5 false = .ok [respB] ∧
    ([] : List MovieResponse) ≠ [respB] := by
  refine ⟨rfl, rfl, by decide⟩

/-- Claim C5, amended: the collaborative-filtering recommender (1) delegates
to the content-based recommender whenever the model or the mappings are not
loaded; (2) delegates when the requesting user is absent from the
user-mapping table *provided* some candidate of the pool survives the
seen/movie-mapping filters (otherwise the check is never reached); and
(3) a candidate whose prediction raises is skipped without aborting the
batch. -/
theorem c5_cf_fallback_behavior :
    (∀ (svc : AdvancedRecommendationService) (s : Store) (u : String) (n : ℕ)
        (ex : Bool), (svc.cf_model = none ∨ svc.cf_mappings = none) →
      AdvancedRecommendationService.get_collaborative_filtering_recommendations
        svc s u n ex =
        AdvancedRecommendationService.get_content_based_recommendations s u n ex) ∧
    (∀ (model : CFModel) (maps : CFMappings) (hc : Option HybridConfig)
        (s : Store) (u : String) (n : ℕ) (ex : Bool),
      u ∉ maps.user_id_map →
      truthyList (CacheRepository.get_json_recs s (cfRecKey u n ex)) = none →
      (∃ m ∈ MovieRepository.get_movies s 500,
        m.mid ∉ (if ex then InteractionRepository.get_user_movie_ids s u else []) ∧
        m.mid ∈ maps.movie_id_map) →
      AdvancedRecommendationService.get_collaborative_filtering_recommendations
        ⟨some model, some maps, hc⟩ s u n ex =
        AdvancedRecommendationService.get_content_based_recommendations s u n ex) ∧
    (∀ (model : CFModel) (maps : CFMappings) (u : String) (seen : List String)
        (m : Movie) (rest : List Movie) (preds : List (String × ℚ)) (e : PyErr),
      m.mid ∉ seen → m.mid ∈ maps.movie_id_map → u ∈ maps.user_id_map →
      model.predict u m.mid = .error e →
      AdvancedRecommendationService.cfLoop model maps u seen (m :: rest) preds =
        AdvancedRecommendationService.cfLoop model maps u seen rest preds) := by
  refine ⟨?_, ?_, ?_⟩
  · intro svc s u n ex h
    obtain ⟨l, hl⟩ := adv_cb_ok s u n ex
    unfold AdvancedRecommendationService.get_collaborative_filtering_recommendations
    rcases svc with ⟨om, omp, oh⟩
    rcases h with h | h
    · cases h
      rw [hl]
      rfl
    · cases h
      cases om with
      | none => rw [hl]; rfl
      | some m => rw [hl]; rfl
  · intro model maps hc s u n ex hu hmiss hex
    obtain ⟨l, hl⟩ := adv_cb_ok s u n ex
    unfold AdvancedRecommendationService.get_collaborative_filtering_recommendations
    rw [hmiss]
    dsimp only
    rw [cfLoop_eq_none_of_candidate model maps u _ hu _ [] hex]
    rw [hl]
    rfl
  · intro model maps u seen m rest preds e h1 h2 h3 h4
    simp only [AdvancedRecommendationService.cfLoop]
    rw [if_neg h1, if_neg (not_not_intro h2), if_neg (not_not_intro h3), h4]

/-- Witness for `c5_cf_fallback_behavior`: part 1 at `svcNoModel`/`storeC5`,
part 2 at `svcUserless`/`storeC5b` (pool `[mA]` with `mA.mid` in the movie
mapping), part 3 skipping `mA` under an always-raising predictor. -/
theorem c5_cf_fallback_behavior_witness :
    AdvancedRecommendationService.get_collaborative_filtering_recommendations
      svcNoModel storeC5 "ux" 5 false =
      AdvancedRecommendationService.get_content_based_recommendations
        storeC5 "ux" 5 false ∧
    AdvancedRecommendationService.get_collaborative_filtering_recommendations
      svcUserless storeC5b "ux" 5 false =
      AdvancedRecommendationService.get_content_based_recommendations
        storeC5b "ux" 5 false ∧
    AdvancedRecommendationService.cfLoop
      { predict := fun _ _ => .error (.valueError "prediction failed") }
      { movie_id_map := [mA.mid], user_id_map := ["ux"] } "ux" [] [mA] [] =
      AdvancedRecommendationService.cfLoop
        { predict := fun _ _ => .error (.valueError "prediction failed") }
        { movie_id_map := [mA.mid], user_id_map := ["ux"] } "ux" [] [] [] := by
  refine ⟨?_, ?_, ?_⟩
  · exact c5_cf_fallback_behavior.1 svcNoModel storeC5 "ux" 5 false (Or.inl rfl)
  · exact c5_cf_fallback_behavior.2.1
      { predict := fun _ _ => .ok 4 }
      { movie_id_map := [mA.mid], user_id_map := [] } none storeC5b "ux" 5 false
      (by decide) rfl ⟨mA, by decide, by decide, by decide⟩
  · exact c5_cf_fallback_behavior.2.2
      { predict := fun _ _ => .error (.valueError "prediction failed") }
      { movie_id_map := [mA.mid], user_id_map := ["ux"] } "ux" [] mA [] []
      (.valueError "prediction failed") (by decide) (by decide) (by decide) rfl

/-! ## Claim C6 -/

/-- Claim C6, counterexample: the detail fetch of the module-level
`get_popular_movies` applies no sort: on a store whose collection order is
`[mA, mB]` while `mB` has strictly more interactions, the function returns
`[mA]` for `limit = 1`, not the top-1-by-count `[mB]` that the claim (and
`specTopPopularByCount`, written from the spec's words) requires. -/
theorem c6_popular_not_ordered_by_count :
    recommendation_service.get_popular_movies moviesC6 docsC6 none false false 1 =
      [mA] ∧
    specTopPopularByCount moviesC6 docsC6 1 = [mB] ∧
    mA ≠ mB := by
  refine ⟨by decide, by decide, by decide⟩

/-- Claim C6, amended: for the module-level popularity fallback (on a cache
miss and with no store failure): (1) when the aggregation yields no candidate
ids, it returns the most recently created movies; (2) otherwise every
returned movie is among the up-to-`2*limit` most-interacted ids, but in
collection order and truncated to `limit` — *not* ordered by interaction
count, as shown above; (3) in every case (including store
failures) at most `limit` movies are returned, and with no movies at all the
result is empty; and (4) the advanced-service variant returns `[]` on every
cache miss, because the repository method it calls does not exist. -/
theorem c6_popular_fallback_amended :
    (∀ (movies : List Movie) (docs : List InteractionDoc) (limit : ℕ),
      popularMovieObjectIds docs limit = [] →
      recommendation_service.get_popular_movies movies docs none false false limit =
        movies.reverse.take limit) ∧
    (∀ (movies : List Movie) (docs : List InteractionDoc) (limit : ℕ),
      popularMovieObjectIds docs limit ≠ [] →
      ∀ m ∈ recommendation_service.get_popular_movies movies docs none false false limit,
        m.mid ∈ popularMovieObjectIds docs limit) ∧
    (∀ (movies : List Movie) (docs : List InteractionDoc) (aggFails fbFails : Bool)
        (limit : ℕ),
      (recommendation_service.get_popular_movies movies docs none aggFails fbFails
        limit).length ≤ limit) ∧
    (∀ (s : Store) (limit : ℕ),
      truthyList (CacheRepository.get_json_recs s (popularRecKey limit)) = none →
      AdvancedRecommendationService.get_popular_movies s limit = .ok []) := by
  refine ⟨?_, ?_, ?_, ?_⟩
  · intro movies docs limit hids
    unfold recommendation_service.get_popular_movies
    rw [hids]
    rfl
  · intro movies docs limit hids m hm
    unfold recommendation_service.get_popular_movies at hm
    rw [if_neg hids] at hm
    dsimp only [truthyList] at hm
    have hm2 : m ∈ movies.filter (fun mv => mv.mid ∈ popularMovieObjectIds docs limit) :=
      List.take_subset _ _ hm
    have := List.mem_filter.mp hm2
    simpa using this.2
  · intro movies docs aggFails fbFails limit
    unfold recommendation_service.get_popular_movies
    dsimp only [truthyList]
    cases aggFails with
    | true =>
        cases fbFails with
        | true => simp
        | false => simp [List.length_take]
    | false =>
        by_cases hids : popularMovieObjectIds docs limit = []
        · rw [if_pos hids]
          simp [List.length_take]
        · rw [if_neg hids]
          simp [List.length_take]
  · intro s limit hmiss
    unfold AdvancedRecommendationService.get_popular_movies
    rw [hmiss]
    rfl

/-- Witness for `c6_popular_fallback_amended`: part 1 with no interactions
(`[mB]` is the most recent movie of `moviesC6`), part 2 and part 3 on the
`docsC6` data, part 4 on `baseStore`. -/
theorem c6_popular_fallback_amended_witness :
    recommendation_service.get_popular_movies moviesC6 [] none false false 1 = [mB] ∧
    (∀ m ∈ recommendation_service.get_popular_movies moviesC6 docsC6 none false false 1,
      m.mid ∈ popularMovieObjectIds docsC6 1) ∧
    (recommendation_service.get_popular_movies moviesC6 docsC6 none false false 1).length
      ≤ 1 ∧
    AdvancedRecommendationService.get_popular_movies baseStore 1 = .ok [] := by
  refine ⟨?_, ?_, ?_, ?_⟩
  · exact (c6_popular_fallback_amended.1 moviesC6 [] 1 rfl).trans (by decide)
  · exact c6_popular_fallback_amended.2.1 moviesC6 docsC6 1 (by decide)
  · exact c6_popular_fallback_amended.2.2.1 moviesC6 docsC6 false false 1
  · exact c6_popular_fallback_amended.2.2.2 baseStore 1 rfl

/-! ## Claim C10 -/

theorem similarFromDbLoop_num_head (s : Store) (e : SimEntry) (rest : List SimEntry)
    (acc : List MovieResponse) (h : e.similarity.isNum = true) :
    ∃ err, AdvancedRecommendationService.similarFromDbLoop s (e :: rest) acc =
      .error err := by
  cases hv : e.similarity with
  | num q =>
      refine ⟨.valueError "Invalid ObjectId format: <float>", ?_⟩
      simp only [AdvancedRecommendationService.similarFromDbLoop,
        AdvancedRecommendationService.get_by_id_dyn, hv]
  | str s2 =>
      rw [hv] at h
      exact absurd h (by simp [JVal.isNum])

/-- Claim C10: for every movie id whose pre-computed `item_similarity` document
contains at least one `similar_movies` entry with a numeric `similarity`
field (the field the code also sorts by), `get_similar_movies_from_db`
returns `[]` on a cache miss: line 118 passes the `similarity` **value** — a
number — as the movie id, `ObjectId.is_valid` rejects it, `get_by_id`
raises, and the outer `except` converts the failure into `[]` (if the entries
mix numeric and string `similarity` values, the sort itself raises
`TypeError` with the same `[]` outcome).  Consequently the advanced
content-based scoring loop receives an empty list and accumulates no
candidate scores through this path. -/
theorem c10_similarity_used_as_id_yields_empty (s : Store) (movie_id : String)
    (limit : ℕ) (entries : List SimEntry)
    (hmiss : truthyList (CacheRepository.get_json_recs s
      (similarDbKey movie_id limit)) = none)
    (hdoc : s.dbItemSimilarity movie_id = .ok (some entries))
    (hnum : ∃ e ∈ entries, e.similarity.isNum = true) :
    AdvancedRecommendationService.get_similar_movies_from_db s movie_id limit = [] ∧
    (∀ (seen : List String) (w : ℚ) (scores : List (String × MovieResponse × ℚ)),
      AdvancedRecommendationService.cbScoreLoop seen w [] scores = scores) := by
  refine ⟨?_, fun seen w scores => rfl⟩
  unfold AdvancedRecommendationService.get_similar_movies_from_db
  rw [hmiss]
  dsimp only
  rw [hdoc]
  dsimp only
  by_cases hall : entries.all (fun e => e.similarity.isNum) = true
  · have hsorted : AdvancedRecommendationService.sortSimilar entries =
        .ok (sortDescBy (fun e => e.similarity.numVal) entries) := by
      unfold AdvancedRecommendationService.sortSimilar
      rw [if_pos hall]
    rw [hsorted]
    dsimp only
    cases limit with
    | zero =>
        simp [AdvancedRecommendationService.similarFromDbLoop, pyTry]
    | succ n =>
        obtain ⟨e0, he0, hnum0⟩ := hnum
        have hne : sortDescBy (fun e => e.similarity.numVal) entries ≠ [] := by
          intro hcontr
          have hmem := (mem_sortDescBy (fun e => e.similarity.numVal) e0 entries).mpr he0
          rw [hcontr] at hmem
          exact absurd hmem (List.not_mem_nil e0)
        obtain ⟨e1, rest1, heq⟩ := List.exists_cons_of_ne_nil hne
        rw [heq, List.take_succ_cons]
        have he1 : e1.similarity.isNum = true := by
          have hmem : e1 ∈ entries := (mem_sortDescBy _ e1 entries).mp
            (by rw [heq]; exact List.mem_cons_self e1 rest1)
          exact List.all_eq_true.mp hall e1 hmem
        obtain ⟨err, herr⟩ := similarFromDbLoop_num_head s e1 (rest1.take n) [] he1
        rw [herr]
        rfl
  · have hmixed : ¬(entries.all (fun e => !e.similarity.isNum) = true) := by
      obtain ⟨e0, he0, hnum0⟩ := hnum
      intro hstr
      have := List.all_eq_true.mp hstr e0 he0
      rw [hnum0] at this
      simp at this
    have hsorted : AdvancedRecommendationService.sortSimilar entries =
        .error (.typeError "TypeError: comparison between str and float") := by
      unfold AdvancedRecommendationService.sortSimilar
      rw [if_neg hall, if_neg hmixed]
    rw [hsorted]
    rfl

/-- Witness for `c10_similarity_used_as_id_yields_empty` at `storeC10`, whose
document for `"m10"` holds one entry with numeric similarity `9/10`. -/
theorem c10_similarity_used_as_id_witness :
    AdvancedRecommendationService.get_similar_movies_from_db storeC10 "m10" 20 = [] := by
  exact (c10_similarity_used_as_id_yields_empty storeC10 "m10" 20
    [{ similarity := .num (9/10) }] rfl rfl
    ⟨{ similarity := .num (9/10) }, List.mem_cons_self _ _, rfl⟩).1

/-! ## Claim C7 -/

theorem map_fst_update (scores : List (String × ℚ)) (k : String) (v : ℚ) :
    (scores.map fun kv => if kv.1 = k then (kv.1, kv.2 + v) else kv).map Prod.fst =
      scores.map Prod.fst := by
  induction scores with
  | nil => rfl
  | cons a as ih =>
      simp only [List.map_cons, ih]
      split <;> rfl

theorem keys_dictAddScore (scores : List (String × ℚ)) (k : String) (v : ℚ)
    (k2 : String)
    (h : k2 ∈ (RecommendationService.dictAddScore scores k v).map Prod.fst) :
    k2 = k ∨ k2 ∈ scores.map Prod.fst := by
  unfold RecommendationService.dictAddScore at h
  split at h
  · rw [map_fst_update] at h
    exact Or.inr h
  · rw [List.map_append] at h
    rcases List.mem_append.mp h with h | h
    · exact Or.inr h
    · simp at h
      exact Or.inl h

theorem scoreCandidates_keys (s : Store) (seen : List String) (movie_id : String)
    (emb : List ℚ) (w : ℚ) :
    ∀ (cands : List Movie) (scores : List (String × ℚ)),
      (∀ k ∈ scores.map Prod.fst, k ∉ seen) →
      ∀ k ∈ (RecommendationService.scoreCandidates s seen movie_id emb w cands
        scores).map Prod.fst, k ∉ seen := by
  intro cands
  induction cands with
  | nil => intro scores h; exact h
  | cons c rest ih =>
      intro scores h
      simp only [RecommendationService.scoreCandidates]
      by_cases hA : c.mid ∈ seen ∨ (scores.lookup c.mid).isSome = true
      · rw [if_pos hA]
        exact ih scores h
      · rw [if_neg hA]
        by_cases hB : c.mid = movie_id
        · rw [if_pos hB]
          exact ih scores h
        · rw [if_neg hB]
          cases hE : MovieRepository.get_embedding s c.mid with
          | none => exact ih scores h
          | some cemb =>
              apply ih
              intro k hk
              rcases keys_dictAddScore scores c.mid _ k hk with rfl | hk2
              · push_neg at hA
                exact hA.1
              · exact h k hk2

theorem profileLoop_keys (s : Store) (seen : List String) :
    ∀ (inters : List Interaction) (scores : List (String × ℚ)),
      (∀ k ∈ scores.map Prod.fst, k ∉ seen) →
      ∀ k ∈ (RecommendationService.profileLoop s seen inters scores).map Prod.fst,
        k ∉ seen := by
  intro inters
  induction inters with
  | nil => intro scores h; exact h
  | cons i rest ih =>
      intro scores h
      simp only [RecommendationService.profileLoop]
      by_cases hA : i.movie_id = ""
      · rw [if_pos hA]
        exact ih scores h
      · rw [if_neg hA]
        cases hE : MovieRepository.get_embedding s i.movie_id with
        | none => exact ih scores h
        | some emb =>
            exact ih _ (scoreCandidates_keys s seen i.movie_id emb _ _ scores h)

theorem detailLoop_mem (s : Store) :
    ∀ (mids : List String) (r : MovieResponse),
      r ∈ RecommendationService.detailLoop s mids →
      ∃ mid ∈ mids, ∃ m : Movie, MovieRepository.get_by_id s mid = .ok (some m) ∧
        r = movieToResponseBasic m := by
  intro mids
  induction mids with
  | nil =>
      intro r hr
      simp [RecommendationService.detailLoop] at hr
  | cons mid rest ih =>
      intro r hr
      simp only [RecommendationService.detailLoop] at hr
      cases hE : MovieRepository.get_by_id s mid with
      | error e =>
          rw [hE] at hr
          obtain ⟨mid2, hmem, m, hm, hr2⟩ := ih r hr
          exact ⟨mid2, List.mem_cons_of_mem _ hmem, m, hm, hr2⟩
      | ok om =>
          rw [hE] at hr
          cases om with
          | none =>
              obtain ⟨mid2, hmem, m, hm, hr2⟩ := ih r hr
              exact ⟨mid2, List.mem_cons_of_mem _ hmem, m, hm, hr2⟩
          | some m =>
              rcases List.mem_cons.mp hr with rfl | hr2
              · exact ⟨mid, List.mem_cons_self _ _, m, hE, rfl⟩
              · obtain ⟨mid2, hmem, m2, hm2, hr3⟩ := ih r hr2
                exact ⟨mid2, List.mem_cons_of_mem _ hmem, m2, hm2, hr3⟩

theorem get_by_id_mid_eq (s : Store)
    (hcoh : ∀ mid m, s.dbFindOneMovie mid = .ok (some m) → m.mid = mid)
    (mid : String) (m : Movie)
    (h : MovieRepository.get_by_id s mid = .ok (some m)) : m.mid = mid := by
  unfold MovieRepository.get_by_id at h
  by_cases hv : oidIsValidStr mid = true
  · rw [if_pos hv] at h
    exact hcoh mid m h
  · rw [if_neg hv] at h
    simp at h

/-- Claim C7: for every store whose movie lookups are coherent (a fetched
document's id is the id queried, and a user with no recent interactions has
no interacted ids), every user and every limit: on a cache miss with
`exclude_seen = true`, every response in the computed recommendation list has
an id outside the user's full interacted-item set.  The profile-building step
itself runs over the unfiltered recent interactions, including seen items
(witnessed at `storeC7`, where the only profile item is itself seen and still
produces a non-empty result). -/
theorem c7_exclude_seen_output_disjoint (s : Store) (user_id : String) (limit : ℕ)
    (hcoh : ∀ mid m, s.dbFindOneMovie mid = .ok (some m) → m.mid = mid)
    (hids : InteractionRepository.get_user_interactions s user_id 10 = [] →
      InteractionRepository.get_user_movie_ids s user_id = [])
    (hmiss : truthyList (CacheRepository.get_json_recs s
      (userRecKey user_id limit true)) = none) :
    ∀ l, RecommendationService.get_recommendations_for_user s user_id limit true =
        .ok l →
      ∀ r ∈ l, r.id ∉ InteractionRepository.get_user_movie_ids s user_id := by
  intro l hl r hr
  unfold RecommendationService.get_recommendations_for_user at hl
  rw [hmiss] at hl
  dsimp only at hl
  by_cases hum : InteractionRepository.get_user_interactions s user_id 10 = []
  · rw [hids hum]
    exact List.not_mem_nil _
  · rw [if_neg hum] at hl
    rw [if_pos rfl] at hl
    injection hl with hl
    subst hl
    obtain ⟨mid, hmid_mem, m, hm, rfl⟩ := detailLoop_mem s _ r hr
    have hmidm : m.mid = mid := get_by_id_mid_eq s hcoh mid m hm
    show m.mid ∉ InteractionRepository.get_user_movie_ids s user_id
    rw [hmidm]
    obtain ⟨p, hp_mem, hp_eq⟩ := List.mem_map.mp hmid_mem
    have hp_scores : p ∈ RecommendationService.profileLoop s
        (InteractionRepository.get_user_movie_ids s user_id)
        (InteractionRepository.get_user_interactions s user_id 10) [] :=
      (mem_sortDescBy _ _ _).mp (List.take_subset _ _ hp_mem)
    have hkey : mid ∈ (RecommendationService.profileLoop s
        (InteractionRepository.get_user_movie_ids s user_id)
        (InteractionRepository.get_user_interactions s user_id 10) []).map Prod.fst :=
      List.mem_map.mpr ⟨p, hp_scores, hp_eq⟩
    exact profileLoop_keys s _ _ []
      (fun k hk => absurd hk (List.not_mem_nil k)) mid hkey

/-- Witness for `c7_exclude_seen_output_disjoint` at `storeC7`: the user's
only (recent) interaction is the already-seen `m7a`, the computed result is
the non-empty `[movieToResponseBasic m7b]` (so profile building did use the
seen item), and its ids avoid the seen set. -/
theorem c7_exclude_seen_witness :
    RecommendationService.get_recommendations_for_user storeC7 "u7" 5 true =
      .ok [movieToResponseBasic m7b] ∧
    (∀ r ∈ [movieToResponseBasic m7b],
      r.id ∉ InteractionRepository.get_user_movie_ids storeC7 "u7") := by
  have hcoh : ∀ mid m, storeC7.dbFindOneMovie mid = .ok (some m) → m.mid = mid := by
    intro mid m h
    injection h with h2
    by_cases h1 : mid = m7a.mid
    · rw [if_pos h1] at h2
      injection h2 with h3
      rw [← h3, h1]
    · rw [if_neg h1] at h2
      by_cases hb : mid = m7b.mid
      · rw [if_pos hb] at h2
        injection h2 with h3
        rw [← h3, hb]
      · rw [if_neg hb] at h2
        simp at h2
  have heval : RecommendationService.get_recommendations_for_user storeC7 "u7" 5 true =
      .ok [movieToResponseBasic m7b] := rfl
  refine ⟨heval, ?_⟩
  exact c7_exclude_seen_output_disjoint storeC7 "u7" 5 hcoh
    (fun h => absurd h (by decide)) rfl [movieToResponseBasic m7b] heval
